import Mathlib

/-!
Verification of the `payroll` repository: a shallow embedding of the
calculation engine (`payroll/calculation.py`), the rate tables
(`payroll/tax_table.py`), the date arithmetic (`payroll/date_utils.py`)
and the line-item data model (`payroll/line_item.py`), together with
theorems settling the spec claims.

Python `Decimal` / `Money` amounts are modelled as `ℚ` (the program uses a
single currency, EUR, and exact decimal arithmetic).  Python exceptions are
modelled with `Except` / `Option`.  The unbounded recursion of the
`Calculator` resolver is modelled with an explicit call-depth budget
(`fuel`): exhausting the budget models the Python stack overflow.
-/

namespace Payroll

/-! ## Dates (model of Python `datetime.date`)

A proleptic-Gregorian calendar date.  `dayNumber` is the ordinal used by
Python's `date.toordinal` (0001-01-01 ↦ 1); date subtraction in Python is
the difference of ordinals. -/

structure Date where
  year : ℕ
  month : ℕ
  day : ℕ
  deriving DecidableEq, Repr

def isLeapYear (y : ℕ) : Bool :=
  y % 4 == 0 && (y % 100 != 0 || y % 400 == 0)

/-- Model of `calendar.monthrange(y, m)[1]`: number of days in a month. -/
def daysInMonth (y m : ℕ) : ℕ :=
  if m = 2 then (if isLeapYear y then 29 else 28)
  else if m = 4 ∨ m = 6 ∨ m = 9 ∨ m = 11 then 30
  else 31

def daysBeforeMonth (y m : ℕ) : ℕ :=
  ((List.range (m - 1)).map (fun k => daysInMonth y (k + 1))).sum

/-- Proleptic Gregorian ordinal of a date (Python `date.toordinal`). -/
def dayNumber (d : Date) : ℕ :=
  365 * (d.year - 1) + (d.year - 1) / 4 - (d.year - 1) / 100 + (d.year - 1) / 400
    + daysBeforeMonth d.year d.month + d.day

/-- `date_utils.count_days_between_dates(d1, d2)`: `abs((d2 - d1).days)`.
Python date subtraction is the difference of the ordinals. -/
def count_days_between_dates (d1 d2 : Date) : ℕ :=
  ((dayNumber d2 : ℤ) - (dayNumber d1 : ℤ)).natAbs

/-- Python `date` comparison (lexicographic on year, month, day). -/
def Date.lt (a b : Date) : Bool :=
  Nat.blt a.year b.year ||
    (a.year == b.year &&
      (Nat.blt a.month b.month || (a.month == b.month && Nat.blt a.day b.day)))

/-- Model of `dateutil.relativedelta`: `dt - relativedelta(months = k)`,
with the day clamped to the length of the target month. -/
def subMonths (dt : Date) (k : ℕ) : Date :=
  let total := dt.year * 12 + (dt.month - 1) - k
  let y := total / 12
  let m := total % 12 + 1
  ⟨y, m, min dt.day (daysInMonth y m)⟩

/-! ## Rate tables (`payroll/tax_table.py`)

pydantic v1 semantics matter here: a field validator that RAISES a
`ValueError` fails the whole row (and so the whole table load), but a
post-validator that RETURNS a `ValueError` instance silently makes that
instance the field's value.  `IncomeTaxEntry._validate_upto` and the
`Fixed` branch of `CategoryRateEntry._validate_rate` do the latter, so the
loaded field is modelled as a sum of a proper value and an error object. -/

/-- `custom_base_model.validate_monetary_value`. -/
def validate_monetary_value (n : ℚ) : Bool := 0 ≤ n

/-- The `upto` field of a loaded `IncomeTaxEntry`: the sentinel `-1` is
mapped to `Decimal('Infinity')` (`infinite`); a negative value other than
`-1` makes `_validate_upto` return (not raise) a `ValueError`, so the
loaded field holds the error object (`errObject`). -/
inductive UptoField where
  | finite : ℚ → UptoField
  | infinite : UptoField
  | errObject : String → UptoField
  deriving DecidableEq, Repr

structure IncomeTaxEntry where
  upto : UptoField
  rate : ℚ
  subtract : ℚ
  deriving DecidableEq, Repr

/-- `IncomeTaxEntry._validate_upto`: note the `return ValueError(...)` in the
source where a `raise` was evidently intended. -/
def validate_upto (v : ℚ) : Except String UptoField :=
  if v = -1 then .ok .infinite
  else if v < 0 then .ok (.errObject "upto cannot be < 0")
  else .ok (.finite v)

/-- `IncomeTaxEntry._validate_rate` (this one raises properly). -/
def validate_income_tax_rate (v : ℚ) : Except String ℚ :=
  if 0 ≤ v ∧ v ≤ 1 then .ok v else .error "rate must be between 0 and 1.0"

/-- `IncomeTaxEntry._validate_subtract` (raises properly). -/
def validate_subtract (v : ℚ) : Except String ℚ :=
  if validate_monetary_value v then .ok v else .error "subtract cannot be < 0"

/-- A raw CSV row for the income-tax table. -/
structure IncomeTaxRow where
  upto : ℚ
  rate : ℚ
  subtract : ℚ
  deriving DecidableEq, Repr

/-- Loading one income-tax row: `IncomeTaxEntry(**row)` with pydantic
running the three field validators; any raised error fails the row. -/
def loadIncomeTaxEntry (r : IncomeTaxRow) : Except String IncomeTaxEntry := do
  let u ← validate_upto r.upto
  let rt ← validate_income_tax_rate r.rate
  let s ← validate_subtract r.subtract
  .ok ⟨u, rt, s⟩

/-- `IncomeTaxTable.load`: every row is parsed; the first raised validation
error aborts the whole table. -/
def loadIncomeTaxTable (rows : List IncomeTaxRow) : Except String (List IncomeTaxEntry) :=
  rows.mapM loadIncomeTaxEntry

/-- `IncomeTaxTable.apply`: first-match-wins scan; `entry.upto >= taxable.amount`
yields `(taxable × rate) − subtract`; falling off the loop yields zero.
Comparing a loaded `ValueError` object against a `Decimal` raises `TypeError`. -/
def IncomeTaxTable_apply : List IncomeTaxEntry → ℚ → Except String ℚ
  | [], _ => .ok 0
  | e :: rest, x =>
    match e.upto with
    | .infinite => .ok (x * e.rate - e.subtract)
    | .finite q => if x ≤ q then .ok (x * e.rate - e.subtract) else IncomeTaxTable_apply rest x
    | .errObject _ => .error "TypeError: ordering of ValueError and Decimal"

/-- An entry whose `upto` field holds a proper bound (finite or the
unbounded sentinel), not a leaked error object. -/
def wellFormedUpto (e : IncomeTaxEntry) : Bool :=
  match e.upto with
  | .errObject _ => false
  | _ => true

/-- Spec-side matching predicate for C4: the entry's upper bound is ≥ the
taxable amount; the unbounded sentinel matches every amount. -/
def entryMatches (x : ℚ) (e : IncomeTaxEntry) : Bool :=
  match e.upto with
  | .infinite => true
  | .finite q => x ≤ q
  | .errObject _ => false

inductive RateType where
  | fixed
  | rate
  deriving DecidableEq, Repr

/-- The `rate` field of a loaded `CategoryRateEntry`: for the `Fixed` kind a
negative rate makes `_validate_rate` return (not raise) a `ValueError`. -/
inductive RateField where
  | val : ℚ → RateField
  | errObject : String → RateField
  deriving DecidableEq, Repr

structure CategoryRateEntry where
  category : String
  rate_type : RateType
  rate : RateField
  maximum : ℚ
  deriving DecidableEq, Repr

/-- A raw CSV row for a category-rate (SSC / maternity-fund) table. -/
structure CategoryRateRow where
  category : String
  rate_type : String
  rate : ℚ
  maximum : ℚ
  deriving DecidableEq, Repr

/-- `CategoryRateEntry._validate_category`. -/
def validate_category (v : String) : Except String String :=
  if v ∈ ["A", "B", "C/D #1", "C/D #2", "E", "F"] then .ok v
  else .error "category must be one of the options"

/-- `CategoryRateEntry._validate_rate_type` (a pre-validator; raises). -/
def validate_rate_type (v : String) : Except String RateType :=
  if v = "Fixed" then .ok .fixed
  else if v = "Rate" then .ok .rate
  else .error "rate_type must be one of the options"

/-- `CategoryRateEntry._validate_rate`: the `Fixed` branch returns (not
raises) a `ValueError` for a negative rate; the `Rate` branch raises. -/
def validate_category_rate (rt : RateType) (v : ℚ) : Except String RateField :=
  match rt with
  | .fixed => if ¬ 0 ≤ v then .ok (.errObject "rate must be >= 0") else .ok (.val v)
  | .rate => if 0 ≤ v ∧ v ≤ 1 then .ok (.val v) else .error "rate must be between 0 and 1.0"

/-- `CategoryRateEntry._validate_subtract` applied to `maximum` (raises). -/
def validate_maximum (v : ℚ) : Except String ℚ :=
  if validate_monetary_value v then .ok v else .error "subtract cannot be < 0"

def loadCategoryRateEntry (r : CategoryRateRow) : Except String CategoryRateEntry := do
  let c ← validate_category r.category
  let rt ← validate_rate_type r.rate_type
  let rv ← validate_category_rate rt r.rate
  let mx ← validate_maximum r.maximum
  .ok ⟨c, rt, rv, mx⟩

def loadCategoryRateTable (rows : List CategoryRateRow) : Except String (List CategoryRateEntry) :=
  rows.mapM loadCategoryRateEntry

/-- `CategoryRateTable.apply`: first entry matching the category yields
`Money(rate)` for the `Fixed` kind or `weekly_wage * rate` otherwise, capped
by `min` at the entry's maximum.  Falling off the loop returns Python's
implicit `None`, modelled as `.ok none`; touching a leaked `ValueError`
rate object raises. -/
def CategoryRateTable_apply : List CategoryRateEntry → String → ℚ → Except String (Option ℚ)
  | [], _, _ => .ok none
  | e :: rest, cat, w =>
    if cat == e.category then
      match e.rate with
      | .errObject _ => .error "TypeError: ValueError in arithmetic"
      | .val r => .ok (some (min (if e.rate_type = RateType.fixed then r else w * r) e.maximum))
    else CategoryRateTable_apply rest cat w

def monthNames : List String :=
  ["january", "february", "march", "april", "may", "june",
   "july", "august", "september", "october", "november", "december"]

/-- `MonetaryBonusEntry._validate_month`: a pre-validator that returns (not
raises) a `ValueError` for an invalid month name — but because it is a
PRE-validator, pydantic then fails to coerce the returned object to `int`,
so the row still fails to load (with a type error instead of the message). -/
def validate_month (v : String) : Except String ℕ :=
  match monthNames.indexOf? v with
  | some i => .ok (i + 1)
  | none => .error "type_error: value is not a valid integer"

/-- `MonetaryBonusEntry._validate_subtract` applied to `bonus` (raises). -/
def validate_bonus (v : ℚ) : Except String ℚ :=
  if validate_monetary_value v then .ok v else .error "bonus cannot be < 0"

structure MonetaryBonusEntry where
  month : ℕ
  bonus : ℚ
  deriving DecidableEq, Repr

structure MonetaryBonusRow where
  month : String
  bonus : ℚ
  deriving DecidableEq, Repr

def loadMonetaryBonusEntry (r : MonetaryBonusRow) : Except String MonetaryBonusEntry := do
  let m ← validate_month r.month
  let b ← validate_bonus r.bonus
  .ok ⟨m, b⟩

def loadMonetaryBonusTable (rows : List MonetaryBonusRow) : Except String (List MonetaryBonusEntry) :=
  rows.mapM loadMonetaryBonusEntry

/-- A small well-formed income-tax table used to instantiate witnesses:
15% up to 10000 subtracting 500, then an unbounded 35% row subtracting 2000. -/
def demoIncomeTaxTable : List IncomeTaxEntry :=
  [⟨.finite 10000, mkRat 15 100, 500⟩, ⟨.infinite, mkRat 35 100, 2000⟩]

/-- A loaded category-rate table with a single fixed-amount entry for
category `"A"` — used to probe `apply` with a category it does not list. -/
def demoCategoryTableA : List CategoryRateEntry :=
  [⟨"A", .fixed, .val 10, 20⟩]

/-! ## Money rounding

`moneyed.Money.round(2)` quantizes the decimal amount with Python's
default `ROUND_HALF_EVEN` rounding. -/

/-- Round a rational to the nearest integer, ties to even
(Python `decimal` default `ROUND_HALF_EVEN`). -/
def roundHalfEven (x : ℚ) : ℤ :=
  let f := ⌊x⌋
  let r := x - f
  if r < mkRat 1 2 then f
  else if mkRat 1 2 < r then f + 1
  else if f % 2 = 0 then f else f + 1

/-- `Money.round(2)`: round to 2 decimal places, ties to even. -/
def round2 (x : ℚ) : ℚ := mkRat (roundHalfEven (x * 100)) 100

/-! ## StatutoryBonus (`calculation.py`, class `StatutoryBonus`) -/

/-- `StatutoryBonus.__calculate_bonus_for_year_and_month`: scan the bonus
table in file order for the first row of the target month; pay the full
bonus when the employee started strictly before six months prior to that
month's end, else pro-rate linearly by the ratio of day counts
(`count_days_between_dates(month_end, employee_start) /
count_days_between_dates(month_end, date_six_months_ago)`, an exact
rational here where Python uses binary float division); return 0 when no
row matches the month.  The divisor is never zero for a real month-end
(the model's `mkRat _ 0 = 0` branch is unreachable there). -/
def calculate_bonus_for_year_and_month (table : List MonetaryBonusEntry)
    (year month : ℕ) (employee_start : Date) : ℚ :=
  match table.find? (fun e => e.month == month) with
  | none => 0
  | some entry =>
    let month_end : Date := ⟨year, month, daysInMonth year month⟩
    let date_six_months_ago := subMonths month_end 6
    if Date.lt employee_start date_six_months_ago then entry.bonus
    else
      let diff_emp_start := count_days_between_dates month_end employee_start
      let diff_six_months := count_days_between_dates month_end date_six_months_ago
      entry.bonus * mkRat (diff_emp_start : ℤ) diff_six_months

/-- `StatutoryBonus.compute`: the month's bonus scaled by
`hours_per_week / 40` (exact here, binary float in Python) and rounded to
2 decimals. -/
def statutory_bonus_compute (table : List MonetaryBonusEntry)
    (year month : ℕ) (employee_start : Date) (hours_per_week : ℕ) : ℚ :=
  round2 (calculate_bonus_for_year_and_month table year month employee_start
    * mkRat (hours_per_week : ℤ) 40)

/-! ## Social-security and maternity-fund contributions
(`calculation.py`, classes `SocialSecurityContribution` and
`MaternityFundContribution`; registry in `payroll.py` `Payroll.execute`) -/

inductive TaxComputation where
  | single
  | married
  | parent
  | parttime
  deriving DecidableEq, Repr

/-- `Employee.pays_social_security_contributions`:
`tax_computation != TaxComputation.parttime`. -/
def pays_social_security_contributions (tc : TaxComputation) : Bool :=
  match tc with
  | .parttime => false
  | _ => true

/-- `SocialSecurityContribution.compute`: `Money 0` when the employee does
not pay social-security contributions; otherwise
`table.apply(category, weekly_wage) × mondays`, rounded to 2 decimals.
When `apply` returns Python `None` (unmatched category) the multiplication
raises a `TypeError`. -/
def social_security_contribution_compute (table : List CategoryRateEntry)
    (tc : TaxComputation) (category : String) (weekly_wage : ℚ) (mondays : ℕ) :
    Except String ℚ :=
  if pays_social_security_contributions tc = false then .ok 0
  else
    match CategoryRateTable_apply table category weekly_wage with
    | .error msg => .error msg
    | .ok none => .error "TypeError: unsupported operand for NoneType"
    | .ok (some amt) => .ok (round2 (amt * mondays))

/-- `MaternityFundContribution.compute`: always
`table.apply(category, weekly_wage) × mondays` rounded to 2 decimals —
there is no part-time guard. -/
def maternity_fund_contribution_compute (table : List CategoryRateEntry)
    (category : String) (weekly_wage : ℚ) (mondays : ℕ) : Except String ℚ :=
  match CategoryRateTable_apply table category weekly_wage with
  | .error msg => .error msg
  | .ok none => .error "TypeError: unsupported operand for NoneType"
  | .ok (some amt) => .ok (round2 (amt * mondays))

/-- `Payroll.execute` registers `social_security_contribution_employee` as
an instance of `SocialSecurityContribution` (`payroll.py` lines 70-71). -/
def ssc_employee_compute := social_security_contribution_compute

/-- `Payroll.execute` registers `social_security_contribution_employer` as
ANOTHER instance of the SAME `SocialSecurityContribution` class over the
same table (`payroll.py` lines 72-73): the employer side therefore carries
the same part-time guard as the employee side. -/
def ssc_employer_compute := social_security_contribution_compute

/-- A loaded statutory-bonus table with a single row: June, 600. -/
def demoBonusTable : List MonetaryBonusEntry := [⟨6, 600⟩]

/-! ## Line-item data model (`payroll/line_item.py`, class `Items`)

`Items` maps a fixed closed set of sixteen names to `Optional[Money]`,
each defaulting to Python `None`. -/

structure Items where
  prior_gross_emoluments : Option ℚ := none
  basic_pay_full_time : Option ℚ := none
  basic_pay_part_time : Option ℚ := none
  manual_adjustments : Option ℚ := none
  statutory_bonus : Option ℚ := none
  total_taxable_gross_emoluments : Option ℚ := none
  prior_income_tax_deduction : Option ℚ := none
  income_tax_full_time : Option ℚ := none
  income_tax_part_time : Option ℚ := none
  social_security_contribution_employee : Option ℚ := none
  social_security_contribution_employer : Option ℚ := none
  total_deductions : Option ℚ := none
  maternity_fund_contribution_employer : Option ℚ := none
  reimbursements : Option ℚ := none
  net_pay : Option ℚ := none
  tax_due : Option ℚ := none
  deriving DecidableEq, Repr

/-- `Items()`: the default construction, every field Python `None`. -/
def Items.unset : Items := {}

/-- `Items.zero()`: every field `Money("0.0", EUR)`. -/
def Items.zero : Items :=
  ⟨some 0, some 0, some 0, some 0, some 0, some 0, some 0, some 0,
   some 0, some 0, some 0, some 0, some 0, some 0, some 0, some 0⟩

/-- Field-wise `Optional[Money]` addition: `Money + Money` adds the
amounts; any `None` operand raises a `TypeError` in Python (`moneyed`
rejects non-`Money`, non-zero operands), modelled as `none`. -/
def addOpt (a b : Option ℚ) : Option ℚ :=
  match a, b with
  | some x, some y => some (x + y)
  | _, _ => none

/-- `Items.__add__`: field-wise addition; a `TypeError` on any field (a
Python `None` operand) aborts the whole addition, so the result is `none`
unless every field pair holds `Money` values. -/
def Items.add (a b : Items) : Option Items :=
  let c : Items :=
    ⟨addOpt a.prior_gross_emoluments b.prior_gross_emoluments,
     addOpt a.basic_pay_full_time b.basic_pay_full_time,
     addOpt a.basic_pay_part_time b.basic_pay_part_time,
     addOpt a.manual_adjustments b.manual_adjustments,
     addOpt a.statutory_bonus b.statutory_bonus,
     addOpt a.total_taxable_gross_emoluments b.total_taxable_gross_emoluments,
     addOpt a.prior_income_tax_deduction b.prior_income_tax_deduction,
     addOpt a.income_tax_full_time b.income_tax_full_time,
     addOpt a.income_tax_part_time b.income_tax_part_time,
     addOpt a.social_security_contribution_employee b.social_security_contribution_employee,
     addOpt a.social_security_contribution_employer b.social_security_contribution_employer,
     addOpt a.total_deductions b.total_deductions,
     addOpt a.maternity_fund_contribution_employer b.maternity_fund_contribution_employer,
     addOpt a.reimbursements b.reimbursements,
     addOpt a.net_pay b.net_pay,
     addOpt a.tax_due b.tax_due⟩
  if c.prior_gross_emoluments.isSome && c.basic_pay_full_time.isSome
      && c.basic_pay_part_time.isSome && c.manual_adjustments.isSome
      && c.statutory_bonus.isSome && c.total_taxable_gross_emoluments.isSome
      && c.prior_income_tax_deduction.isSome && c.income_tax_full_time.isSome
      && c.income_tax_part_time.isSome && c.social_security_contribution_employee.isSome
      && c.social_security_contribution_employer.isSome && c.total_deductions.isSome
      && c.maternity_fund_contribution_employer.isSome && c.reimbursements.isSome
      && c.net_pay.isSome && c.tax_due.isSome
  then some c else none

/-- Every field of the record holds a `Money` value (no Python `None`). -/
def Items.populatedP (a : Items) : Prop :=
  ∃ x1 x2 x3 x4 x5 x6 x7 x8 x9 x10 x11 x12 x13 x14 x15 x16 : ℚ,
    a = ⟨some x1, some x2, some x3, some x4, some x5, some x6, some x7, some x8,
         some x9, some x10, some x11, some x12, some x13, some x14, some x15, some x16⟩

/-! ## Calculator (`payroll/calculation.py`, class `Calculator`)

`Calculator.value_of` / `projection_of` resolve line items on demand: a
cache hit returns the cached `Money`; a miss invokes the variant's
`compute` / `project`, passing the resolvers back in, then stores the
result.  A variant's body is embedded as an expression over constants,
resolver calls and arithmetic (the shapes the variants use).  Python's
unbounded recursion is modelled with an explicit call-depth budget
(`fuel`), decremented on every step: a Python execution that terminates
is reproduced by every sufficiently large budget, and one that recurses
for ever exhausts every budget (`outOfFuel`, the stack overflow the
`value_of` docstring itself warns about).  Invocation counters for
`compute` and `project` instrument the state (the spec's scenario counts
calls); they influence no result. -/

inductive Expr where
  | const : ℚ → Expr
  | valueOf : String → Expr
  | projectionOf : String → Expr
  | add : Expr → Expr → Expr
  | scale : ℚ → Expr → Expr
  deriving DecidableEq, Repr

/-- A registered calculation variant: `compute` is mandatory; `project` is
`none` for a non-projectable variant (the `Calculation` base class returns
Python `None`). -/
structure Calculation where
  compute : Expr
  project : Option Expr
  deriving DecidableEq, Repr

/-- The `calculations` dict: name → variant, ordered. -/
def Registry := List (String × Calculation)

/-- Python dict/attribute lookup over an association list. -/
def dictGet {α : Type} : List (String × α) → String → Option α
  | [], _ => none
  | (k, v) :: rest, key => if k == key then some v else dictGet rest key

/-- Increment a per-name invocation counter. -/
def bump (l : List (String × ℕ)) (k : String) : List (String × ℕ) :=
  match dictGet l k with
  | some m => (k, m + 1) :: l
  | none => (k, 1) :: l

/-- Read a per-name invocation counter (0 when never invoked). -/
def countOf (l : List (String × ℕ)) (k : String) : ℕ :=
  (dictGet l k).getD 0

/-- The `Calculator`'s per-payment state: the `__values` and
`__projections` caches, plus the instrumentation counters. -/
structure CalcState where
  values : List (String × ℚ)
  projections : List (String × ℚ)
  computeCount : List (String × ℕ)
  projectCount : List (String × ℕ)
  deriving DecidableEq, Repr

/-- A `Calculator` freshly constructed for one payment: both caches empty. -/
def CalcState.initial : CalcState := ⟨[], [], [], []⟩

inductive CalcErr where
  | missingItem : String → CalcErr
  | projectionUnavailable : String → CalcErr
  | depCycle : List String → CalcErr
  | outOfFuel : CalcErr
  deriving DecidableEq, Repr

/-- The three recursion entry points of the engine: evaluating a variant
body, `Calculator.value_of` and `Calculator.projection_of`. -/
inductive Task where
  | evalE : Expr → Task
  | valE : String → Task
  | projE : String → Task
  deriving DecidableEq, Repr

/-- The resolution engine.  `valE n` is `Calculator.value_of(n)`: cached
value, else `KeyError` for an unregistered name, else invoke `compute`
(counting the invocation) and store the result.  `projE n` is
`Calculator.projection_of(n)`: cached projection, else `KeyError`, else
the explicit `ValueError` when the variant declares no projection
(`projectionUnavailable` — never a zero default), else invoke `project`
and store.  `evalE` runs a variant body, re-entering the resolvers at its
`valueOf`/`projectionOf` nodes.  `depCycle` exists only to state the
spec's claimed error: no branch produces it. -/
def interp : ℕ → Registry → Task → CalcState → Except CalcErr (ℚ × CalcState)
  | 0, _, _, _ => .error .outOfFuel
  | fuel + 1, reg, t, s =>
    match t with
    | .evalE e =>
      match e with
      | .const q => .ok (q, s)
      | .valueOf n => interp fuel reg (.valE n) s
      | .projectionOf n => interp fuel reg (.projE n) s
      | .add e1 e2 =>
        match interp fuel reg (.evalE e1) s with
        | .error err => .error err
        | .ok (x, s1) =>
          match interp fuel reg (.evalE e2) s1 with
          | .error err => .error err
          | .ok (y, s2) => .ok (x + y, s2)
      | .scale q e1 =>
        match interp fuel reg (.evalE e1) s with
        | .error err => .error err
        | .ok (x, s1) => .ok (q * x, s1)
    | .valE n =>
      match dictGet s.values n with
      | some v => .ok (v, s)
      | none =>
        match dictGet reg n with
        | none => .error (.missingItem n)
        | some cal =>
          match interp fuel reg (.evalE cal.compute)
              { s with computeCount := bump s.computeCount n } with
          | .error err => .error err
          | .ok (v, s1) => .ok (v, { s1 with values := (n, v) :: s1.values })
    | .projE n =>
      match dictGet s.projections n with
      | some v => .ok (v, s)
      | none =>
        match dictGet reg n with
        | none => .error (.missingItem n)
        | some cal =>
          match cal.project with
          | none => .error (.projectionUnavailable n)
          | some pe =>
            match interp fuel reg (.evalE pe)
                { s with projectCount := bump s.projectCount n } with
            | .error err => .error err
            | .ok (v, s1) => .ok (v, { s1 with projections := (n, v) :: s1.projections })

/-- `Calculator.value_of`. -/
def value_of (fuel : ℕ) (reg : Registry) (n : String) (s : CalcState) :
    Except CalcErr (ℚ × CalcState) :=
  interp fuel reg (.valE n) s

/-- `Calculator.projection_of`. -/
def projection_of (fuel : ℕ) (reg : Registry) (n : String) (s : CalcState) :
    Except CalcErr (ℚ × CalcState) :=
  interp fuel reg (.projE n) s

/-- `Payroll.execute` line 96: resolve every registered name in order,
threading the calculator state. -/
def run_values (fuel : ℕ) (reg : Registry) : List String → CalcState → Except CalcErr CalcState
  | [], s => .ok s
  | n :: rest, s =>
    match value_of fuel reg n s with
    | .error err => .error err
    | .ok (_, s1) => run_values fuel reg rest s1

/-- A registry shaped like the program's: `total_taxable_gross_emoluments`
is requested by two dependents (`income_tax_part_time` at a flat 15% and
`net_pay`), and `projectable_item` declares a projection. -/
def demoCalcRegistry : Registry :=
  [("total_taxable_gross_emoluments", ⟨.const 100, none⟩),
   ("income_tax_part_time",
     ⟨.scale (mkRat 15 100) (.valueOf "total_taxable_gross_emoluments"), none⟩),
   ("net_pay",
     ⟨.add (.valueOf "total_taxable_gross_emoluments")
       (.scale (-1) (.valueOf "income_tax_part_time")), none⟩),
   ("projectable_item", ⟨.const 5, some (.const 60)⟩)]

/-- The spec's call-counter scenario: resolve the two dependents of
`total_taxable_gross_emoluments` in one payment, then read that name's
`compute` invocation counter. -/
def scenario_ttge_compute_count : Option ℕ :=
  match run_values 10 demoCalcRegistry ["income_tax_part_time", "net_pay"]
      CalcState.initial with
  | .error _ => none
  | .ok s => some (countOf s.computeCount "total_taxable_gross_emoluments")

/-- The direct self-cycle registry: `a`'s `compute` immediately requests
`value_of("a")`. -/
def cycRegistry : Registry := [("a", ⟨.valueOf "a", none⟩)]

/-- A calculator state with a cached value for `"x"` and a cached
projection for `"y"`. -/
def demoCachedState : CalcState := ⟨[("x", 42)], [("y", 7)], [], []⟩

end Payroll

namespace Payroll

/-- Claim C8 counterexample: `count_days_between_dates` is NOT the inclusive
day count.  For 2020-01-01 and 2020-01-02 the code returns 1, while the
inclusive count of the span (one more than the absolute ordinal
difference) is 2. -/
theorem claim_C8_counterexample :
    count_days_between_dates ⟨2020, 1, 1⟩ ⟨2020, 1, 2⟩ ≠
      ((dayNumber ⟨2020, 1, 2⟩ : ℤ) - (dayNumber ⟨2020, 1, 1⟩ : ℤ)).natAbs + 1 := by
  decide

/-- Claim C8 (amended): `count_days_between_dates(d1, d2)` returns the
absolute EXCLUSIVE day difference `|ordinal(d2) - ordinal(d1)|` (so for two
distinct dates it equals the absolute calendar-day difference, not one
more); it is symmetric in its arguments, and it is zero exactly when the
two dates have the same ordinal. -/
theorem claim_C8_amended (d1 d2 : Date) :
    count_days_between_dates d1 d2 = ((dayNumber d2 : ℤ) - (dayNumber d1 : ℤ)).natAbs
    ∧ count_days_between_dates d1 d2 = count_days_between_dates d2 d1
    ∧ (count_days_between_dates d1 d2 = 0 ↔ dayNumber d1 = dayNumber d2) := by
  refine ⟨rfl, ?_, ?_⟩ <;> simp [count_days_between_dates] <;> omega

/-- Helper for C4: on a table whose every `upto` field is a proper bound,
`IncomeTaxTable.apply` returns the formula of the first matching entry in
file order, and zero when no entry matches. -/
theorem IncomeTaxTable_apply_eq_find (entries : List IncomeTaxEntry) (x : ℚ)
    (hwf : ∀ e ∈ entries, wellFormedUpto e = true) :
    IncomeTaxTable_apply entries x =
      .ok (match entries.find? (entryMatches x) with
        | some e => x * e.rate - e.subtract
        | none => 0) := by
  induction entries with
  | nil => rfl
  | cons e rest ih =>
    have he : wellFormedUpto e = true := hwf e (List.mem_cons_self e rest)
    have hrest : ∀ e' ∈ rest, wellFormedUpto e' = true :=
      fun e' h' => hwf e' (List.mem_cons_of_mem e h')
    rcases hu : e.upto with q | _ | msg
    · by_cases hle : x ≤ q
      · have hm : entryMatches x e = true := by simp [entryMatches, hu, hle]
        rw [List.find?_cons_of_pos _ hm]
        simp [IncomeTaxTable_apply, hu, hle]
      · have hm : ¬ entryMatches x e = true := by simp [entryMatches, hu, hle]
        rw [List.find?_cons_of_neg _ hm]
        simp only [IncomeTaxTable_apply, hu, hle, if_false]
        exact ih hrest
    · have hm : entryMatches x e = true := by simp [entryMatches, hu]
      rw [List.find?_cons_of_pos _ hm]
      simp [IncomeTaxTable_apply, hu]
    · simp [wellFormedUpto, hu] at he

/-- Claim C4: for every loaded income-tax table whose entries each carry a
proper upper bound, and every taxable amount, `IncomeTaxTable.apply`
returns `(taxable × rate) − subtract` computed from the first entry in
file order whose upper bound is ≥ the amount; an entry with the unbounded
sentinel bound matches every amount; and if no entry matches the result is
zero. -/
theorem claim_C4 (entries : List IncomeTaxEntry) (x r s : ℚ)
    (hwf : ∀ e ∈ entries, wellFormedUpto e = true) :
    IncomeTaxTable_apply entries x =
      .ok (match entries.find? (entryMatches x) with
        | some e => x * e.rate - e.subtract
        | none => 0)
    ∧ entryMatches x ⟨.infinite, r, s⟩ = true :=
  ⟨IncomeTaxTable_apply_eq_find entries x hwf, rfl⟩

/-- Claim C4 witness: on the demo table, 50000 falls past the 10000 bracket
into the unbounded 35% row: `apply` yields `50000 × 0.35 − 2000`. -/
theorem claim_C4_witness :
    (∀ e ∈ demoIncomeTaxTable, wellFormedUpto e = true)
    ∧ IncomeTaxTable_apply demoIncomeTaxTable 50000 = .ok (50000 * mkRat 35 100 - 2000) := by
  refine ⟨by decide, ?_⟩
  have h := (claim_C4 demoIncomeTaxTable 50000 0 0 (by decide)).1
  rw [h]
  rfl

/-- Claim C7 (code bug): loading does NOT reject every invalid row.
`IncomeTaxEntry._validate_upto` and the `Fixed` branch of
`CategoryRateEntry._validate_rate` RETURN a `ValueError` instead of raising
it, so (pydantic v1 post-validator semantics) a row with a negative upper
bound, and a fixed-kind row with a negative rate, load successfully with
the error object stored as the field value.  This theorem evaluates the
embedded loaders at those failing inputs. -/
theorem claim_C7_bug_eval :
    loadIncomeTaxTable [⟨-5, mkRat 1 10, 0⟩] =
        .ok [⟨.errObject "upto cannot be < 0", mkRat 1 10, 0⟩]
    ∧ loadCategoryRateEntry ⟨"A", "Fixed", -3, 10⟩ =
        .ok ⟨"A", .fixed, .errObject "rate must be >= 0", 10⟩ :=
  ⟨rfl, rfl⟩

/-- Claim C9 counterexample: on a loaded table whose only entry is for
category `"A"`, applying category `"B"` matches no entry, and the code
returns Python's implicit `None` (`.ok none`) — it does NOT fail with a
reported configuration error. -/
theorem claim_C9_counterexample :
    (∀ e ∈ demoCategoryTableA, ("B" == e.category) = false)
    ∧ CategoryRateTable_apply demoCategoryTableA "B" 100 = .ok none := by
  exact ⟨by decide, rfl⟩

/-- Claim C9 (amended): for every loaded category-rate table and every
`(category, weeklyWage)`: if some entry matches the category (first match
in file order wins), `apply` returns the fixed amount for a `Fixed` entry
or `weeklyWage × rate` for a `Rate` entry, capped by `min` at that entry's
maximum (so it returns the cap when the proportional product exceeds it);
if no entry matches the category, `apply` silently returns no value
(Python `None`), not an error.  (Touching an entry whose rate field holds
a leaked `ValueError` object raises a `TypeError`.) -/
theorem claim_C9_amended (entries : List CategoryRateEntry) (cat : String) (w : ℚ) :
    CategoryRateTable_apply entries cat w =
      match entries.find? (fun e => cat == e.category) with
      | none => .ok none
      | some e =>
        match e.rate with
        | .errObject _ => .error "TypeError: ValueError in arithmetic"
        | .val r => .ok (some (min (if e.rate_type = RateType.fixed then r else w * r) e.maximum)) := by
  induction entries with
  | nil => rfl
  | cons e rest ih =>
    cases hc : cat == e.category with
    | true => simp only [CategoryRateTable_apply, List.find?, hc, cond_true, if_true]
    | false =>
      simp only [CategoryRateTable_apply, List.find?, hc, cond_false, if_false]
      exact ih

/-- Helper: an integral rational value is a fixed point of half-even
rounding to an integer. -/
theorem roundHalfEven_intCast (n : ℤ) : roundHalfEven ((n : ℤ) : ℚ) = n := by
  have hc : ((n : ℚ) - ((⌊((n : ℤ) : ℚ)⌋ : ℤ) : ℚ)) < mkRat 1 2 := by
    rw [Int.floor_intCast, sub_self, Rat.mkRat_eq_div]
    norm_num
  simp only [roundHalfEven]
  rw [if_pos hc, Int.floor_intCast]

/-- Helper: rounding to 2 decimals of a value whose hundredfold is the
integer `n` yields `n/100`. -/
theorem round2_eq_mkRat (x : ℚ) (n : ℤ) (h : x * 100 = (n : ℚ)) :
    round2 x = mkRat n 100 := by
  simp only [round2, h, roundHalfEven_intCast]

/-- Helper: Python date comparison is irreflexive. -/
theorem Date.lt_self (d : Date) : Date.lt d d = false := by
  have h : ∀ n : ℕ, Nat.blt n n = false := by
    intro n
    refine Bool.eq_false_iff.mpr (fun hx => ?_)
    exact absurd (Nat.blt_eq ▸ hx) (lt_irrefl n)
  simp [Date.lt, h]

/-- Helper: `mkRat n n = 1` for a positive natural `n`. -/
theorem mkRat_self_of_pos (n : ℕ) (h : 0 < n) : mkRat (n : ℤ) n = 1 := by
  rw [Rat.mkRat_eq_div]
  push_cast
  exact div_self (by exact_mod_cast h.ne')

/-- Claim C5: for the bonus-table row found for the target month,
`StatutoryBonus.compute` pays the full bonus amount (scaled by
`hours_per_week / 40` and rounded to 2 decimals) when the employee's start
date precedes the month-end by more than 6 months; otherwise it pro-rates
linearly by `daysBetween(monthEnd, employeeStart) /
daysBetween(monthEnd, sixMonthsBeforeMonthEnd)`.  In particular an
employee starting exactly 6 months before month-end receives the full
bonus (the ratio is 1), and one whose elapsed/window ratio is 1/2 receives
exactly half, scaled by hours/40. -/
theorem claim_C5 (table : List MonetaryBonusEntry) (entry : MonetaryBonusEntry)
    (year month hours : ℕ) (empStart month_end sixAgo : Date)
    (hfind : table.find? (fun e => e.month == month) = some entry)
    (hme : month_end = ⟨year, month, daysInMonth year month⟩)
    (hsix : sixAgo = subMonths month_end 6) :
    (Date.lt empStart sixAgo = true →
      statutory_bonus_compute table year month empStart hours =
        round2 (entry.bonus * mkRat (hours : ℤ) 40))
    ∧ (Date.lt empStart sixAgo = false →
      statutory_bonus_compute table year month empStart hours =
        round2 (entry.bonus
          * mkRat (count_days_between_dates month_end empStart : ℤ)
              (count_days_between_dates month_end sixAgo)
          * mkRat (hours : ℤ) 40))
    ∧ (empStart = sixAgo → 0 < count_days_between_dates month_end sixAgo →
      statutory_bonus_compute table year month empStart hours =
        round2 (entry.bonus * mkRat (hours : ℤ) 40))
    ∧ (Date.lt empStart sixAgo = false →
       2 * count_days_between_dates month_end empStart
         = count_days_between_dates month_end sixAgo →
       0 < count_days_between_dates month_end empStart →
      statutory_bonus_compute table year month empStart hours =
        round2 (entry.bonus * mkRat 1 2 * mkRat (hours : ℤ) 40)) := by
  subst hsix
  subst hme
  refine ⟨?_, ?_, ?_, ?_⟩
  · intro hlt
    simp only [statutory_bonus_compute, calculate_bonus_for_year_and_month, hfind, hlt, if_true]
  · intro hlt
    simp only [statutory_bonus_compute, calculate_bonus_for_year_and_month, hfind, hlt,
      Bool.false_eq_true, if_false]
  · intro heq hpos
    subst heq
    have hlt := Date.lt_self (subMonths ⟨year, month, daysInMonth year month⟩ 6)
    simp only [statutory_bonus_compute, calculate_bonus_for_year_and_month, hfind, hlt,
      Bool.false_eq_true, if_false]
    rw [mkRat_self_of_pos _ hpos, mul_one]
  · intro hlt h2 hpos
    simp only [statutory_bonus_compute, calculate_bonus_for_year_and_month, hfind, hlt,
      Bool.false_eq_true, if_false]
    have hratio :
        mkRat (count_days_between_dates ⟨year, month, daysInMonth year month⟩ empStart : ℤ)
          (count_days_between_dates ⟨year, month, daysInMonth year month⟩
            (subMonths ⟨year, month, daysInMonth year month⟩ 6)) = mkRat 1 2 := by
      rw [Rat.mkRat_eq_div, Rat.mkRat_eq_div, ← h2]
      have hne : ((count_days_between_dates ⟨year, month, daysInMonth year month⟩ empStart : ℚ)) ≠ 0 := by
        exact_mod_cast hpos.ne'
      push_cast
      rw [div_mul_eq_div_div_swap, div_self hne]
    rw [hratio]

/-- Claim C5 witness: June 2021 (month end 2021-06-30, six months prior
2020-12-30); an employee starting exactly on 2020-12-30 at 40 hours/week
receives the full June bonus of 600 scaled by 40/40. -/
theorem claim_C5_witness :
    demoBonusTable.find? (fun e => e.month == 6) = some ⟨6, 600⟩
    ∧ (⟨2020, 12, 30⟩ : Date) = subMonths ⟨2021, 6, daysInMonth 2021 6⟩ 6
    ∧ 0 < count_days_between_dates ⟨2021, 6, daysInMonth 2021 6⟩
        (subMonths ⟨2021, 6, daysInMonth 2021 6⟩ 6)
    ∧ statutory_bonus_compute demoBonusTable 2021 6 ⟨2020, 12, 30⟩ 40 =
        round2 ((600 : ℚ) * mkRat (40 : ℤ) 40) := by
  refine ⟨rfl, by decide, by decide, ?_⟩
  exact (claim_C5 demoBonusTable ⟨6, 600⟩ 2021 6 40 ⟨2020, 12, 30⟩ _ _ rfl rfl
    rfl).2.2.1 (by decide) (by decide)

/-- Claim C6 counterexample: the claim says only the EMPLOYEE-side
social-security contribution is zeroed for part-time-taxed employees and
"the employer side still applies the formula".  But `Payroll.execute`
registers the employer side as another instance of the same
`SocialSecurityContribution` class, which carries the same part-time
guard: for a part-time employee of category "A" (fixed amount 10, 4
Mondays worked) the employer-side contribution is 0, while the formula
value — shown by the guard-free maternity variant over the same table —
is `round2(10 × 4) = 40 ≠ 0`. -/
theorem claim_C6_counterexample :
    ssc_employer_compute demoCategoryTableA .parttime "A" 100 4 = .ok 0
    ∧ maternity_fund_contribution_compute demoCategoryTableA "A" 100 4 =
        .ok (round2 ((min (10 : ℚ) 20) * ((4 : ℕ) : ℚ)))
    ∧ round2 ((min (10 : ℚ) 20) * ((4 : ℕ) : ℚ)) = 40
    ∧ ssc_employer_compute demoCategoryTableA .parttime "A" 100 4 ≠
        maternity_fund_contribution_compute demoCategoryTableA "A" 100 4 := by
  have hr : round2 ((min (10 : ℚ) 20) * ((4 : ℕ) : ℚ)) = 40 := by
    have h : (min (10 : ℚ) 20) * ((4 : ℕ) : ℚ) * 100 = ((4000 : ℤ) : ℚ) := by
      push_cast
      norm_num
    rw [round2_eq_mkRat _ _ h, Rat.mkRat_eq_div]
    norm_num
  have hm : maternity_fund_contribution_compute demoCategoryTableA "A" 100 4 =
      .ok (round2 ((min (10 : ℚ) 20) * ((4 : ℕ) : ℚ))) := rfl
  refine ⟨rfl, hm, hr, ?_⟩
  rw [hm, hr]
  intro hcontra
  exact absurd (Except.ok.inj hcontra) (by norm_num)

/-- Claim C6 (amended): for every category-rate table, category that the
table lists (`apply` returns a value `amt`), weekly wage and week count:
the employee-side social-security contribution, the employer-side
social-security contribution and the maternity-fund contribution each
equal `amt × weeksWorked` rounded to 2 decimals, EXCEPT that BOTH the
employee-side and the employer-side social-security contributions (two
instances of the same guarded variant) are zero for part-time-taxed
employees; the maternity contribution applies regardless of
tax-computation mode. -/
theorem claim_C6_amended (table : List CategoryRateEntry) (tc : TaxComputation)
    (cat : String) (w : ℚ) (mondays : ℕ) (amt : ℚ)
    (happly : CategoryRateTable_apply table cat w = .ok (some amt)) :
    (pays_social_security_contributions tc = true →
      ssc_employee_compute table tc cat w mondays = .ok (round2 (amt * mondays))
      ∧ ssc_employer_compute table tc cat w mondays = .ok (round2 (amt * mondays)))
    ∧ (pays_social_security_contributions tc = false →
      ssc_employee_compute table tc cat w mondays = .ok 0
      ∧ ssc_employer_compute table tc cat w mondays = .ok 0)
    ∧ maternity_fund_contribution_compute table cat w mondays =
        .ok (round2 (amt * mondays)) := by
  refine ⟨fun hp => ?_, fun hp => ?_, ?_⟩
  · constructor <;>
      simp only [ssc_employee_compute, ssc_employer_compute,
        social_security_contribution_compute, hp, happly, Bool.true_eq_false, if_false]
  · constructor <;>
      simp only [ssc_employee_compute, ssc_employer_compute,
        social_security_contribution_compute, hp, if_true]
  · simp only [maternity_fund_contribution_compute, happly]

/-- Claim C6 witness: category "A" (fixed amount 10 capped at 20), weekly
wage 100, 4 Mondays, a single-taxed employee: both social-security sides
and the maternity fund each yield `round2(10 × 4)`. -/
theorem claim_C6_amended_witness :
    CategoryRateTable_apply demoCategoryTableA "A" 100 = .ok (some (min (10 : ℚ) 20))
    ∧ pays_social_security_contributions .single = true
    ∧ ssc_employee_compute demoCategoryTableA .single "A" 100 4 =
        .ok (round2 ((min (10 : ℚ) 20) * ((4 : ℕ) : ℚ)))
    ∧ maternity_fund_contribution_compute demoCategoryTableA "A" 100 4 =
        .ok (round2 ((min (10 : ℚ) 20) * ((4 : ℕ) : ℚ))) := by
  have happly : CategoryRateTable_apply demoCategoryTableA "A" 100 =
      .ok (some (min (10 : ℚ) 20)) := rfl
  have h := claim_C6_amended demoCategoryTableA .single "A" 100 4 (min (10 : ℚ) 20) happly
  exact ⟨happly, rfl, (h.1 rfl).1, h.2.2⟩

/-- Claim C10 counterexample: the claim quantifies over ALL `Items` values,
but Python `Items()` defaults every field to `None`, and
`Items() + Items.zero()` raises a `TypeError` (`None + Money`) instead of
returning `Items()` — so `a + zero == a` fails at `a = Items()`. -/
theorem claim_C10_counterexample :
    Items.add Items.unset Items.zero = none
    ∧ (none : Option Items) ≠ some Items.unset :=
  ⟨rfl, by simp⟩

/-- Claim C10 (amended): for all `Items` values `a` and `b` whose sixteen
fields are all populated with `Money` values, `a + Items.zero() == a`, and
the addition succeeds with `(a + b).field == a.field + b.field` for every
line-item name in the fixed closed set — addition is pointwise and zero is
its (right) identity on populated records. -/
theorem claim_C10_amended (a b : Items) (ha : a.populatedP) (hb : b.populatedP) :
    Items.add a Items.zero = some a
    ∧ ∃ c, Items.add a b = some c
      ∧ c.prior_gross_emoluments = addOpt a.prior_gross_emoluments b.prior_gross_emoluments
      ∧ c.basic_pay_full_time = addOpt a.basic_pay_full_time b.basic_pay_full_time
      ∧ c.basic_pay_part_time = addOpt a.basic_pay_part_time b.basic_pay_part_time
      ∧ c.manual_adjustments = addOpt a.manual_adjustments b.manual_adjustments
      ∧ c.statutory_bonus = addOpt a.statutory_bonus b.statutory_bonus
      ∧ c.total_taxable_gross_emoluments =
          addOpt a.total_taxable_gross_emoluments b.total_taxable_gross_emoluments
      ∧ c.prior_income_tax_deduction =
          addOpt a.prior_income_tax_deduction b.prior_income_tax_deduction
      ∧ c.income_tax_full_time = addOpt a.income_tax_full_time b.income_tax_full_time
      ∧ c.income_tax_part_time = addOpt a.income_tax_part_time b.income_tax_part_time
      ∧ c.social_security_contribution_employee =
          addOpt a.social_security_contribution_employee b.social_security_contribution_employee
      ∧ c.social_security_contribution_employer =
          addOpt a.social_security_contribution_employer b.social_security_contribution_employer
      ∧ c.total_deductions = addOpt a.total_deductions b.total_deductions
      ∧ c.maternity_fund_contribution_employer =
          addOpt a.maternity_fund_contribution_employer b.maternity_fund_contribution_employer
      ∧ c.reimbursements = addOpt a.reimbursements b.reimbursements
      ∧ c.net_pay = addOpt a.net_pay b.net_pay
      ∧ c.tax_due = addOpt a.tax_due b.tax_due := by
  obtain ⟨x1, x2, x3, x4, x5, x6, x7, x8, x9, x10, x11, x12, x13, x14, x15, x16, rfl⟩ := ha
  obtain ⟨y1, y2, y3, y4, y5, y6, y7, y8, y9, y10, y11, y12, y13, y14, y15, y16, rfl⟩ := hb
  constructor
  · have h :
        Items.add
          ⟨some x1, some x2, some x3, some x4, some x5, some x6, some x7, some x8,
           some x9, some x10, some x11, some x12, some x13, some x14, some x15, some x16⟩
          Items.zero =
        some
          ⟨some (x1 + 0), some (x2 + 0), some (x3 + 0), some (x4 + 0), some (x5 + 0),
           some (x6 + 0), some (x7 + 0), some (x8 + 0), some (x9 + 0), some (x10 + 0),
           some (x11 + 0), some (x12 + 0), some (x13 + 0), some (x14 + 0), some (x15 + 0),
           some (x16 + 0)⟩ := rfl
    rw [h]
    simp only [add_zero]
  · exact ⟨_, rfl, rfl, rfl, rfl, rfl, rfl, rfl, rfl, rfl, rfl, rfl, rfl, rfl, rfl, rfl, rfl, rfl⟩

/-- Claim C10 witness: `Items.zero() + Items.zero() == Items.zero()`, with
the pointwise-addition equations, via the amended theorem at the fully
populated record `Items.zero()`. -/
theorem claim_C10_amended_witness :
    Items.add Items.zero Items.zero = some Items.zero := by
  have hp : Items.populatedP Items.zero :=
    ⟨0, 0, 0, 0, 0, 0, 0, 0, 0, 0, 0, 0, 0, 0, 0, 0, rfl⟩
  exact (claim_C10_amended Items.zero Items.zero hp hp).1

/-- Helper for C2: when a registered name's `compute` immediately requests
its own value and the name is uncached, resolution exhausts every
call-depth budget — the bumped invocation counter never unblocks the
recursion because the cache entry is only written after `compute`
returns. -/
theorem interp_self_cycle (reg : Registry) (n : String) (cal : Calculation)
    (hreg : dictGet reg n = some cal) (hc : cal.compute = .valueOf n) :
    ∀ fuel s, dictGet s.values n = none →
      interp fuel reg (.valE n) s = .error .outOfFuel := by
  intro fuel
  induction fuel using Nat.strong_induction_on with
  | _ fuel ih =>
    intro s hmiss
    cases fuel with
    | zero => rfl
    | succ f1 =>
      cases f1 with
      | zero => simp only [interp, hmiss, hreg, hc]
      | succ f =>
        have hrec : interp f reg (.valE n)
            { s with computeCount := bump s.computeCount n } = .error .outOfFuel :=
          ih f (by omega) _ hmiss
        simp only [interp, hmiss, hreg, hc, hrec]

/-- Helper for C2, phrased over `Calculator.value_of`. -/
theorem value_of_self_cycle (reg : Registry) (n : String) (cal : Calculation)
    (hreg : dictGet reg n = some cal) (hc : cal.compute = .valueOf n)
    (fuel : ℕ) (s : CalcState) (hmiss : dictGet s.values n = none) :
    value_of fuel reg n s = .error .outOfFuel :=
  interp_self_cycle reg n cal hreg hc fuel s hmiss

/-- Claim C2 counterexample: the code has NO cycle detection.  On the
direct self-cycle registry, resolving `"a"` from a fresh calculator
never fails with a `DependencyCycle` error for any call-depth budget — it
exhausts every budget instead (the stack overflow the `value_of`
docstring itself warns about). -/
theorem claim_C2_counterexample :
    ¬ ∃ fuel path, value_of fuel cycRegistry "a" CalcState.initial =
        .error (.depCycle path) := by
  rintro ⟨fuel, path, h⟩
  rw [value_of_self_cycle cycRegistry "a" ⟨.valueOf "a", none⟩ rfl rfl fuel
    CalcState.initial rfl] at h
  simp at h

/-- Claim C2 (amended): for a registry whose dependency graph contains a
cycle (here: a name whose `compute` re-enters its own resolution), an
uncached `value_of` on the cycle recurses without bound: it exhausts
EVERY call-depth budget (the Python implementation overflows the call
stack) and never reports a `DependencyCycle` error — re-entrant
resolution is not detected. -/
theorem claim_C2_amended (reg : Registry) (n : String) (cal : Calculation)
    (hreg : dictGet reg n = some cal) (hc : cal.compute = .valueOf n)
    (fuel : ℕ) (s : CalcState) (hmiss : dictGet s.values n = none) :
    value_of fuel reg n s = .error .outOfFuel
    ∧ ∀ path, value_of fuel reg n s ≠ .error (.depCycle path) := by
  have h := value_of_self_cycle reg n cal hreg hc fuel s hmiss
  refine ⟨h, fun path hcontra => ?_⟩
  rw [h] at hcontra
  simp at hcontra

/-- Claim C2 witness: the concrete self-cycle registry with budget 5. -/
theorem claim_C2_amended_witness :
    dictGet cycRegistry "a" = some ⟨Expr.valueOf "a", none⟩
    ∧ value_of 5 cycRegistry "a" CalcState.initial = .error .outOfFuel := by
  refine ⟨rfl, ?_⟩
  exact (claim_C2_amended cycRegistry "a" ⟨Expr.valueOf "a", none⟩ rfl rfl 5
    CalcState.initial rfl).1

/-- Claim C1: the memoization discipline of the per-payment caches.  A
call on a cached name returns the cached `Money` with the calculator
state — including the invocation counters — unchanged, so `compute`
(resp. `project`) is not invoked again; a successful first call stores
its result in the `values` (resp. `projections`) cache; and in the spec's
scenario, two variants both resolving
`total_taxable_gross_emoluments` in one payment leave its `compute`
invocation counter at exactly 1. -/
theorem claim_C1 (fuel : ℕ) (reg : Registry) (n : String) (s : CalcState) :
    (∀ v, dictGet s.values n = some v →
      value_of (fuel + 1) reg n s = .ok (v, s))
    ∧ (∀ v, dictGet s.projections n = some v →
      projection_of (fuel + 1) reg n s = .ok (v, s))
    ∧ (∀ v s', dictGet s.values n = none → value_of fuel reg n s = .ok (v, s') →
      dictGet s'.values n = some v)
    ∧ (∀ v s', dictGet s.projections n = none → projection_of fuel reg n s = .ok (v, s') →
      dictGet s'.projections n = some v)
    ∧ scenario_ttge_compute_count = some 1 := by
  refine ⟨?_, ?_, ?_, ?_, rfl⟩
  · intro v hcache
    simp only [value_of, interp, hcache]
  · intro v hcache
    simp only [projection_of, interp, hcache]
  · intro v s' hmiss hok
    cases fuel with
    | zero => simp [value_of, interp] at hok
    | succ f =>
      simp only [value_of, interp, hmiss] at hok
      cases hreg : dictGet reg n with
      | none => simp [hreg] at hok
      | some cal =>
        simp only [hreg] at hok
        cases hres : interp f reg (.evalE cal.compute)
            { s with computeCount := bump s.computeCount n } with
        | error err => simp [hres] at hok
        | ok p =>
          obtain ⟨w, s1⟩ := p
          simp only [hres] at hok
          simp only [Except.ok.injEq, Prod.mk.injEq] at hok
          obtain ⟨rfl, rfl⟩ := hok
          simp [dictGet]
  · intro v s' hmiss hok
    cases fuel with
    | zero => simp [projection_of, interp] at hok
    | succ f =>
      simp only [projection_of, interp, hmiss] at hok
      cases hreg : dictGet reg n with
      | none => simp [hreg] at hok
      | some cal =>
        simp only [hreg] at hok
        cases hpe : cal.project with
        | none => simp [hpe] at hok
        | some pe =>
          simp only [hpe] at hok
          cases hres : interp f reg (.evalE pe)
              { s with projectCount := bump s.projectCount n } with
          | error err => simp [hres] at hok
          | ok p =>
            obtain ⟨w, s1⟩ := p
            simp only [hres] at hok
            simp only [Except.ok.injEq, Prod.mk.injEq] at hok
            obtain ⟨rfl, rfl⟩ := hok
            simp [dictGet]

/-- Claim C1 witness: cached names return their cached values with the
state unchanged; a successful first resolution of
`total_taxable_gross_emoluments` stores 100 in the values cache; and the
two-dependents scenario leaves its compute counter at 1. -/
theorem claim_C1_witness :
    dictGet demoCachedState.values "x" = some 42
    ∧ value_of 4 demoCalcRegistry "x" demoCachedState = .ok (42, demoCachedState)
    ∧ projection_of 4 demoCalcRegistry "y" demoCachedState = .ok (7, demoCachedState)
    ∧ dictGet
        (⟨[("total_taxable_gross_emoluments", 100)], [],
          [("total_taxable_gross_emoluments", 1)], []⟩ : CalcState).values
        "total_taxable_gross_emoluments" = some 100
    ∧ scenario_ttge_compute_count = some 1 := by
  have h := claim_C1 3 demoCalcRegistry "x" demoCachedState
  have h2 := claim_C1 3 demoCalcRegistry "y" demoCachedState
  have h3 := (claim_C1 2 demoCalcRegistry "total_taxable_gross_emoluments"
    CalcState.initial).2.2.1 100
    ⟨[("total_taxable_gross_emoluments", 100)], [],
      [("total_taxable_gross_emoluments", 1)], []⟩ rfl rfl
  exact ⟨rfl, h.1 42 rfl, h2.2.1 7 rfl, h3, h.2.2.2.2⟩

/-- Claim C3: for a registered name with no cached projection, if its
variant declares no projection (`project` is the base method returning
Python `None`), `projection_of` raises the explicit error
(`ProjectionUnavailable`, the `ValueError` in the code) and never returns
a value — in particular never zero; if the variant does project and the
body evaluates successfully, `projection_of` returns exactly that
projected `Money` and caches it. -/
theorem claim_C3 (fuel : ℕ) (reg : Registry) (n : String) (s : CalcState)
    (cal : Calculation)
    (hreg : dictGet reg n = some cal) (hmiss : dictGet s.projections n = none) :
    (cal.project = none →
      projection_of (fuel + 1) reg n s = .error (.projectionUnavailable n)
      ∧ ∀ r : ℚ × CalcState, projection_of (fuel + 1) reg n s ≠ .ok r)
    ∧ ∀ pe v s1, cal.project = some pe →
        interp fuel reg (.evalE pe) { s with projectCount := bump s.projectCount n } =
          .ok (v, s1) →
        projection_of (fuel + 1) reg n s =
          .ok (v, { s1 with projections := (n, v) :: s1.projections }) := by
  constructor
  · intro hnone
    have he : projection_of (fuel + 1) reg n s = .error (.projectionUnavailable n) := by
      simp only [projection_of, interp, hmiss, hreg, hnone]
    refine ⟨he, fun r hcontra => ?_⟩
    rw [he] at hcontra
    simp at hcontra
  · intro pe v s1 hpe hev
    simp only [projection_of, interp, hmiss, hreg, hpe, hev]

/-- Claim C3 witness: in the demo registry,
`total_taxable_gross_emoluments` declares no projection and
`projection_of` fails with `ProjectionUnavailable`; `projectable_item`
projects the constant 60 and `projection_of` returns it. -/
theorem claim_C3_witness :
    dictGet demoCalcRegistry "total_taxable_gross_emoluments" =
      some ⟨Expr.const 100, none⟩
    ∧ projection_of 3 demoCalcRegistry "total_taxable_gross_emoluments"
        CalcState.initial =
        .error (.projectionUnavailable "total_taxable_gross_emoluments")
    ∧ projection_of 2 demoCalcRegistry "projectable_item" CalcState.initial =
        .ok (60, ⟨[], [("projectable_item", 60)], [], [("projectable_item", 1)]⟩) := by
  have h1 := claim_C3 2 demoCalcRegistry "total_taxable_gross_emoluments"
    CalcState.initial ⟨Expr.const 100, none⟩ rfl rfl
  have h2 := claim_C3 1 demoCalcRegistry "projectable_item" CalcState.initial
    ⟨Expr.const 5, some (Expr.const 60)⟩ rfl rfl
  refine ⟨rfl, (h1.1 rfl).1, ?_⟩
  exact h2.2 (Expr.const 60) 60 ⟨[], [], [], [("projectable_item", 1)]⟩ rfl rfl

end Payroll
